import Mathlib

/-!
Verification development for the pywapploxx client library
(src/pywapploxx.py).

The embedding is shallow: the persisted IP-block file is an
`Option String` (file content, or `none` when the file is absent),
Python floats are modelled as exact rationals (the values the program
writes and reads are decimal integer literals, where IEEE rounding is
exact), `time.time()` is an explicit rational clock parameter, and the
HTTP server is a list of upcoming responses, one consumed per GET.
Python exceptions are explicit error values.  Python `float(s)` /
`int(s)` are modelled for plain decimal literals (the only forms the
program writes); surrounding whitespace, exponents and underscore
separators of the full Python grammar are not modelled.
-/

namespace WAppLoxx

/-- Value of a single decimal digit character, `none` for a non-digit
(used to model Python parsing of `str` to numbers). -/
def digitVal? (c : Char) : Option ℕ :=
  if c.isDigit then some (c.toNat - 48) else none

/-- Value of a big-endian string of decimal digit characters; `none` as
soon as one character is not a digit.  The empty list gives `some 0`;
callers enforce nonemptiness where Python requires a digit. -/
def digitsVal? (cs : List Char) : Option ℕ :=
  cs.foldl (fun acc c =>
    match acc, digitVal? c with
    | some a, some d => some (10 * a + d)
    | _, _ => none) (some 0)

/-- Little-endian decimal digits of `n` (empty for `0`), with explicit
fuel so the definition is structural and kernel-evaluable. -/
def natToRevDigits : ℕ → ℕ → List ℕ
  | 0, _ => []
  | _ + 1, 0 => []
  | fuel + 1, n + 1 => ((n + 1) % 10) :: natToRevDigits fuel ((n + 1) / 10)

/-- Character of a single decimal digit. -/
def digitChar (d : ℕ) : Char := Char.ofNat (48 + d)

/-- Python `str` of a non-negative integer. -/
def pyStrNat (n : ℕ) : String :=
  if n = 0 then "0" else String.mk ((natToRevDigits n n).reverse.map digitChar)

/-- Python `str` of an integer. -/
def pyStrInt (i : ℤ) : String :=
  if i < 0 then "-" ++ pyStrNat i.natAbs else pyStrNat i.toNat

/-- Python `int(float)`: truncation toward zero. -/
def pyTrunc (q : ℚ) : ℤ := if 0 ≤ q then ⌊q⌋ else ⌈q⌉

/-- Python `float(s)` on plain decimal literals: optional sign, integer
digits, optional fractional part.  `none` models a `ValueError`. -/
def pyFloat? (s : String) : Option ℚ :=
  let cs := s.data
  let sgn : ℚ := if cs.head? = some '-' then -1 else 1
  let cs1 := if cs.head? = some '-' ∨ cs.head? = some '+' then cs.tail else cs
  let ip := cs1.takeWhile Char.isDigit
  let rest := cs1.dropWhile Char.isDigit
  match rest with
  | [] => if ip.isEmpty then none else (digitsVal? ip).map fun n => sgn * (n : ℚ)
  | '.' :: fr =>
    if ip.isEmpty ∧ fr.isEmpty then none
    else if fr.all Char.isDigit then
      match digitsVal? ip, digitsVal? fr with
      | some n, some f => some (sgn * ((n : ℚ) + (f : ℚ) / 10 ^ fr.length))
      | _, _ => none
    else none
  | _ => none

/-- Python `int(s)` on a string: optional sign then decimal digits.
`none` models a `ValueError`. -/
def pyIntOfStr? (s : String) : Option ℤ :=
  let cs := s.data
  let sgn : ℤ := if cs.head? = some '-' then -1 else 1
  let cs1 := if cs.head? = some '-' ∨ cs.head? = some '+' then cs.tail else cs
  if cs1.isEmpty then none
  else (digitsVal? cs1).map fun n => sgn * n

/-- A Python value that can be passed where the source is duck-typed
over `int` and `str` (the `id` argument of `Locks.find_lock_by_id`). -/
inductive PyVal where
  | int (n : ℤ)
  | str (s : String)
deriving DecidableEq

/-- Python `int(v)` on such a value. -/
def pyValInt? : PyVal → Option ℤ
  | .int n => some n
  | .str s => pyIntOfStr? s

/-- Python `str(v)` on such a value. -/
def pyValStr : PyVal → String
  | .int n => pyStrInt n
  | .str s => s

/-! ## The IP-block store (`_save_ip_block`, `_remove_ip_block`,
`_load_ip_block_remaining_seconds`, `_check_ip_block`)

The persisted file is `Option String`: `none` when absent, otherwise
its content. -/

/-- Source `_save_ip_block`: writes `str(int(time.time()) + seconds)`,
overwriting any prior content. -/
def save_ip_block (now : ℚ) (seconds : ℤ) : Option String :=
  some (pyStrInt (pyTrunc now + seconds))

/-- Source `_remove_ip_block`: deletes the file if present; idempotent. -/
def remove_ip_block (_store : Option String) : Option String := none

/-- Source `_load_ip_block_remaining_seconds`: returns the remaining
seconds together with the post-state of the file.  A missing file
returns `(0, none)` at once; a `ValueError` from `float` sets the
remaining seconds to `0` and then falls through to the expiry cleanup,
which removes the file whenever the computed remaining is `≤ 0`. -/
def load_ip_block_remaining_seconds (now : ℚ) (store : Option String) :
    ℤ × Option String :=
  match store with
  | none => (0, none)
  | some content =>
    let remaining : ℤ :=
      match pyFloat? content with
      | some v => ⌈max (v - now) (0 : ℚ)⌉
      | none => 0
    if remaining ≤ 0 then (remaining, remove_ip_block (some content))
    else (remaining, some content)

/-- Message of the `IPBlockedError` raised by `_check_ip_block`. -/
def ip_block_message (r : ℤ) : String :=
  "This IP is currently blocked for another " ++ pyStrInt r ++
    " seconds. Wait for the block to expire or, if your IP has changed, call login() with ignore_ip_block_file = True"

/-! ## Login responses and errors -/

/-- The JSON body of a login response, restricted to the keys the source
reads (`Status`, `ErrMsg`, `BlockTime`); each is `none` when the key is
absent.  All observed values are JSON strings. -/
structure LoginBody where
  Status : Option String
  ErrMsg : Option String
  BlockTime : Option String
deriving DecidableEq

/-- Source `AuthError.AUTH_ERROR_DESCRIPTIONS`. -/
def AUTH_ERROR_DESCRIPTIONS : List (String × String) :=
  [("UNAVAILABLE", "This account is currently not available"),
   ("TOO_MANY_USERS", "Too many users are connected"),
   ("ACCOUNT_LOGGED", "This account is already logged in"),
   ("UNAVAILABLE_BY_ADMIN", "Administrator has been logged in"),
   ("LOGIN_ACCOUNT_BLOCKED", "Account blocked"),
   ("LOGIN_IP_BLOCKED", "Wrong entry. Login blocked."),
   ("UNAUTH", "Please check your entry"),
   ("FAIL_TIMEOUT", "Server error")]

/-- Rendering of a `LoginBody` as `json.dumps` renders the parsed
response dict (fields in the fixed order `Status`, `ErrMsg`,
`BlockTime`; the real dict preserves JSON key order, which for the
response shapes at hand is the same). -/
def json_dumps (b : LoginBody) : String :=
  let fields :=
    (match b.Status with | some v => [("Status", v)] | none => []) ++
    (match b.ErrMsg with | some v => [("ErrMsg", v)] | none => []) ++
    (match b.BlockTime with | some v => [("BlockTime", v)] | none => [])
  "\x7b" ++ String.intercalate ", "
    (fields.map fun p => "\"" ++ p.1 ++ "\": \"" ++ p.2 ++ "\"") ++ "\x7d"

/-- Message computed by `AuthError.__init__` when constructed with
`api_response_json` and no explicit message: the description table is
consulted with the body's `ErrMsg`, falling back to the unknown-error
message embedding the dumped response. -/
def auth_error_message (b : LoginBody) : String :=
  let fallback := "Unknown authentication error. Response: " ++ json_dumps b
  match b.ErrMsg with
  | some k =>
    match AUTH_ERROR_DESCRIPTIONS.lookup k with
    | some d => d
    | none => fallback
  | none => fallback

/-- The exceptions the source can raise: the library's own hierarchy
(`WAppLoxxError`, `AuthError` with its computed message and the raw
response, `IPBlockedError`) plus `pyError` for an uncaught built-in
Python exception (`TypeError`/`ValueError`). -/
inductive WError where
  | wapp (msg : String)
  | auth (message : String) (apiResponse : LoginBody)
  | ipBlocked (msg : String)
  | pyError (kind : String)
deriving DecidableEq

/-- Source `Controller._validate_login_response`, acting on the parsed
body and the IP-block file: on `Status == "SUCCESS"` it removes the
IP-block file and returns the body; otherwise, when
`ErrMsg == "LOGIN_IP_BLOCKED"` and `save_ip_block_time` is set, it
parses `BlockTime` with `int` (an absent key raises `TypeError`, an
unparsable value `ValueError`, both before any file write) and saves
the block, and in every non-success case raises `AuthError` built from
the body. -/
def validate_login_response (saveFlag : Bool) (now : ℚ) (body : LoginBody)
    (store : Option String) : Except WError LoginBody × Option String :=
  if body.Status = some "SUCCESS" then
    (.ok body, remove_ip_block store)
  else if body.ErrMsg = some "LOGIN_IP_BLOCKED" ∧ saveFlag then
    match body.BlockTime with
    | none => (.error (.pyError "TypeError"), store)
    | some bt =>
      match pyIntOfStr? bt with
      | none => (.error (.pyError "ValueError"), store)
      | some n =>
        (.error (.auth (auth_error_message body) body), save_ip_block now n)
  else (.error (.auth (auth_error_message body) body), store)

/-! ## Session client (`Controller.login`,
`Controller._get_authenticated_endpoint`)

The HTTP server is modelled as a list of upcoming responses, one
consumed per GET (of any endpoint, in order).  `time.time()` is the
frozen clock `now` for the duration of one public call.  The query
parameters the source builds (`ts`, `Source`, credentials) do not
influence any claim and are not modelled.  Recursion is driven by
explicit fuel; `none` means the fuel ran out (or the interaction needs
a response beyond the supplied list) and the run is outside the model. -/

/-- An HTTP response: status code and (for the login endpoint) the
parsed JSON body. -/
structure HttpResponse where
  status : ℕ
  body : LoginBody
deriving DecidableEq

/-- The mutable client state: `_logged_in`,
`_last_successful_login_timestamp`, and the persisted IP-block file. -/
structure CtrlState where
  loggedIn : Bool
  lastLogin : Option ℚ
  store : Option String
deriving DecidableEq

/-- Counters instrumenting a run: HTTP GETs issued and `login()` calls
made from inside the dispatch layer (pre-login and 401 re-login). -/
structure RunTrace where
  gets : ℕ
  logins : ℕ
deriving DecidableEq

/-- Source `APIEndpoints` constants (the ones the model needs). -/
def LOGIN_ENDPOINT : String := "login.cgi"

/-- Source `APIEndpoints.LOGOUT`. -/
def LOGOUT_ENDPOINT : String := "logout.cgi"

/-- Source `APIEndpoints.AUTH`. -/
def AUTH_ENDPOINTS : List String := [LOGIN_ENDPOINT, LOGOUT_ENDPOINT]

/-- The kind of call being executed: `login cb` is `Controller.login`
with `check_ip_block = cb`; `dispatch ep` is
`Controller._get_authenticated_endpoint(ep)` from its start;
`dispatchGet ep` is the same function from the point after the
`requires_login` block (the GET, the 401 branch, the `ok` check). -/
inductive ReqKind where
  | login (checkIpBlock : Bool)
  | dispatch (endpoint : String)
  | dispatchGet (endpoint : String)
deriving DecidableEq

/-- Result of a call: a raw response (dispatch) or a parsed login body
(login). -/
inductive RunResult where
  | resp (r : HttpResponse)
  | body (b : LoginBody)
deriving DecidableEq

/-- Output of one call: its result or raised error, the client state,
the responses not yet consumed, and the instrumentation counters. -/
def RunOut : Type :=
  Except WError RunResult × CtrlState × List HttpResponse × RunTrace

/-- The session-client step function, embedding `Controller.login` and
`Controller._get_authenticated_endpoint` (which recurse into each
other: dispatch pre-logins when not authenticated, login dispatches the
login endpoint, and a 401 triggers `self.login()` followed by a full
recursive retry of the dispatch). -/
def runF (saveFlag : Bool) (now : ℚ) :
    ℕ → ReqKind → CtrlState → List HttpResponse → Option RunOut
  | 0, _, _, _ => none
  | fuel + 1, .login checkB, st, resps =>
    let loaded := load_ip_block_remaining_seconds now st.store
    if checkB = true ∧ 0 < loaded.1 then
      some (.error (.ipBlocked (ip_block_message loaded.1)),
        { st with store := loaded.2 }, resps, ⟨0, 0⟩)
    else
      let st1 := if checkB = true then { st with store := loaded.2 } else st
      match runF saveFlag now fuel (.dispatch LOGIN_ENDPOINT) st1 resps with
      | none => none
      | some (.error e, st2, resps2, tr) => some (.error e, st2, resps2, tr)
      | some (.ok (.body _), _, _, _) => none
      | some (.ok (.resp r), st2, resps2, tr) =>
        match validate_login_response saveFlag now r.body st2.store with
        | (.error e, store3) =>
          some (.error e, { st2 with store := store3 }, resps2, tr)
        | (.ok b, store3) =>
          some (.ok (.body b),
            { loggedIn := true, lastLogin := some now, store := store3 },
            resps2, tr)
  | fuel + 1, .dispatch ep, st, resps =>
    if st.loggedIn = false ∧ ep ∉ AUTH_ENDPOINTS then
      match runF saveFlag now fuel (.login true) st resps with
      | none => none
      | some (.error e, st1, resps1, tr) =>
        some (.error e, st1, resps1, ⟨tr.gets, tr.logins + 1⟩)
      | some (.ok _, st1, resps1, tr) =>
        match runF saveFlag now fuel (.dispatchGet ep) st1 resps1 with
        | none => none
        | some (res, st2, resps2, tr2) =>
          some (res, st2, resps2,
            ⟨tr.gets + tr2.gets, tr.logins + 1 + tr2.logins⟩)
    else
      runF saveFlag now fuel (.dispatchGet ep) st resps
  | fuel + 1, .dispatchGet ep, st, resps =>
    match resps with
    | [] => none
    | r :: rest =>
      if r.status = 401 then
        match runF saveFlag now fuel (.login true) st rest with
        | none => none
        | some (.error e, st1, resps1, tr) =>
          some (.error e, st1, resps1, ⟨tr.gets + 1, tr.logins + 1⟩)
        | some (.ok _, st1, resps1, tr) =>
          match runF saveFlag now fuel (.dispatch ep) st1 resps1 with
          | none => none
          | some (res, st2, resps2, tr2) =>
            some (res, st2, resps2,
              ⟨1 + tr.gets + tr2.gets, 1 + tr.logins + tr2.logins⟩)
      else if r.status < 400 then
        some (.ok (.resp r), st, rest, ⟨1, 0⟩)
      else
        some (.error (.wapp ("Unknown error when calling endpoint \x27" ++ ep
            ++ "\x27. Response code: " ++ pyStrNat r.status)),
          st, rest, ⟨1, 0⟩)

/-- Source `Controller.login(check_ip_block)`. -/
def login (saveFlag : Bool) (checkIpBlock : Bool) (now : ℚ) (fuel : ℕ)
    (st : CtrlState) (resps : List HttpResponse) : Option RunOut :=
  runF saveFlag now fuel (.login checkIpBlock) st resps

/-- Source `Controller._get_authenticated_endpoint(endpoint)`. -/
def get_authenticated_endpoint (saveFlag : Bool) (now : ℚ) (fuel : ℕ)
    (ep : String) (st : CtrlState) (resps : List HttpResponse) :
    Option RunOut :=
  runF saveFlag now fuel (.dispatch ep) st resps

/-! ## Locks (`Lock`, `Locks`)

A snapshot entry (one element of the `"List"` array returned by
`get_user_smartloxx`) is modelled with the keys the source reads.
Accessors return, next to their value, the number of
`get_user_smartloxx` HTTP fetches they performed (`0` when served from
the pre-populated `_info` cache).  `Lock._info` is `Option LockInfo`;
the Python falsiness of an empty cached dict is not modelled (snapshot
entries are non-empty objects). -/

/-- One entry of the bulk lock listing.  `ID` is accessed with
`lock_info["ID"]` in `Locks._get_locks`, so it is a required field; the
other keys are read with `.get` and may be absent. -/
structure LockInfo where
  ID : String
  Name : Option String
  HwId : Option String
  Cluster : Option String
  Disabled : Option String
deriving DecidableEq

/-- Errors surfaced by lock lookups: the source's `WAppLoxxError` and
`IndexError` messages, or an uncaught built-in exception. -/
inductive LockErr where
  | wapp (msg : String)
  | indexError (msg : String)
  | pyExc (kind : String)
deriving DecidableEq

/-- Source `Lock`: the vendor id and the lazily-cached `_info`. -/
structure Lock where
  id : ℤ
  info : Option LockInfo
deriving DecidableEq

/-- Source `Lock._get_info`: returns the cached `_info` if present
(`0` fetches), otherwise fetches the bulk listing once (`1` fetch) and
scans it for an entry whose `"ID"` equals `str(self.id)`; absence
raises `WAppLoxxError`. -/
def Lock.get_info (l : Lock) (serverList : List LockInfo) :
    Except LockErr (LockInfo × ℕ) :=
  match l.info with
  | some i => .ok (i, 0)
  | none =>
    match serverList.find? (fun li => li.ID = pyStrInt l.id) with
    | some li => .ok (li, 1)
    | none => .error (.wapp ("Lock with ID " ++ pyStrInt l.id
        ++ " does not exist"))

/-- Source `Lock.name`: `self._info.get("Name")`. -/
def Lock.name (l : Lock) (serverList : List LockInfo) :
    Except LockErr (Option String × ℕ) :=
  (l.get_info serverList).map fun p => (p.1.Name, p.2)

/-- Source `Lock.hwid`: `self._info.get("HwId")`. -/
def Lock.hwid (l : Lock) (serverList : List LockInfo) :
    Except LockErr (Option String × ℕ) :=
  (l.get_info serverList).map fun p => (p.1.HwId, p.2)

/-- Source `Lock.disabled`: `self._info.get("Disabled") == "ON"`. -/
def Lock.disabled (l : Lock) (serverList : List LockInfo) :
    Except LockErr (Bool × ℕ) :=
  (l.get_info serverList).map fun p => (p.1.Disabled = some "ON", p.2)

/-- Source `Lock.cluster`: `int(self._info.get("Cluster"))`; an absent
key makes `int(None)` raise `TypeError`, an unparsable value
`ValueError`. -/
def Lock.cluster (l : Lock) (serverList : List LockInfo) :
    Except LockErr (ℤ × ℕ) :=
  match l.get_info serverList with
  | .error e => .error e
  | .ok (i, c) =>
    match i.Cluster with
    | none => .error (.pyExc "TypeError")
    | some s =>
      match pyIntOfStr? s with
      | none => .error (.pyExc "ValueError")
      | some n => .ok (n, c)

/-- The cluster value determined by a snapshot entry alone, with `0`
fetches (what a pre-populated `Lock.cluster` returns). -/
def cluster_from (li : LockInfo) : Except LockErr (ℤ × ℕ) :=
  match li.Cluster with
  | none => .error (.pyExc "TypeError")
  | some s =>
    match pyIntOfStr? s with
    | none => .error (.pyExc "ValueError")
    | some n => .ok (n, 0)

/-- Source `Locks._get_locks`: one `Lock` per snapshot entry, with id
`int(lock_info["ID"])` and `_info` pre-populated with the entry;
`none` when some `ID` does not parse (the `int` call raises and aborts
the construction). -/
def get_locks : List LockInfo → Option (List Lock)
  | [] => some []
  | li :: rest =>
    match pyIntOfStr? li.ID with
    | none => none
    | some n =>
      match get_locks rest with
      | none => none
      | some ls => some (Lock.mk n (some li) :: ls)

/-- Source `Locks.find_lock_by_id`: scans the locks comparing
`int(id) == int(lock.id)`; returns `none` in the inner option when no
lock matches.  The outer `none` models the `int(id)` call raising
(which only happens when the loop body runs, i.e. the list is
non-empty). -/
def find_lock_by_id (v : PyVal) (locks : List Lock) : Option (Option Lock) :=
  match locks with
  | [] => some none
  | _ =>
    match pyValInt? v with
    | none => none
    | some n => some (locks.find? fun l => n = l.id)

/-- Source `Locks.__getitem__`: `find_lock_by_id`, raising `IndexError`
when nothing is found. -/
def locks_getitem (v : PyVal) (locks : List Lock) : Except LockErr Lock :=
  match find_lock_by_id v locks with
  | none => .error (.pyExc "ValueError")
  | some none => .error (.indexError ("No lock with ID " ++ pyValStr v
      ++ " found"))
  | some (some l) => .ok l

/-- Source `Lock.access_time`: zips the panel status arrays
`AvailableLoxx` and `RemoteAccessTime` and returns the time of the
first pair whose id equals `str(self.id)`, else `None`. -/
def access_time (id : ℤ) (availableLoxx : List String)
    (remoteAccessTime : List ℤ) : Option ℤ :=
  ((availableLoxx.zip remoteAccessTime).find?
    (fun p => p.1 = pyStrInt id)).map Prod.snd

/-- Source `Lock.is_open`:
`True if (access_time and access_time > 0) else False` — `None` and
`0` are falsy, so the result is exactly "there is an access time and it
is positive". -/
def is_open (id : ℤ) (availableLoxx : List String)
    (remoteAccessTime : List ℤ) : Bool :=
  match access_time id availableLoxx remoteAccessTime with
  | none => false
  | some t => 0 < t

/-! ## Concrete scenario data used by witnesses and counterexamples -/

/-- A login body `{"Status": "SUCCESS"}`. -/
def bSuccess : LoginBody := ⟨some "SUCCESS", none, none⟩

/-- An empty response body (a non-login endpoint's body is irrelevant). -/
def bEmpty : LoginBody := ⟨none, none, none⟩

/-- The login body
`{"Status": "FAIL", "ErrMsg": "LOGIN_IP_BLOCKED", "BlockTime": "30"}`. -/
def bBlocked : LoginBody := ⟨some "FAIL", some "LOGIN_IP_BLOCKED", some "30"⟩

/-- An HTTP 401 response. -/
def r401 : HttpResponse := ⟨401, bEmpty⟩

/-- A successful login response. -/
def rLoginOk : HttpResponse := ⟨200, bSuccess⟩

/-- A successful (200) endpoint response. -/
def rOk : HttpResponse := ⟨200, bEmpty⟩

/-- An authenticated client with no IP-block file, whose last login
happened at clock 0. -/
def st0 : CtrlState := ⟨true, some 0, none⟩

/-- A server trace answering an endpoint GET with `k` consecutive 401s
(each followed by a successful re-login response) and then a 200. -/
def pat : ℕ → List HttpResponse
  | 0 => [rOk]
  | k + 1 => r401 :: rLoginOk :: pat k

/-- A concrete bulk-listing entry. -/
def liFront : LockInfo := ⟨"2", some "Front", some "HW2", some "1", some "OFF"⟩

/-- The lock materialized from `liFront` by `Locks._get_locks`. -/
def lockFront : Lock := ⟨2, some liFront⟩

/-- A one-entry snapshot. -/
def snapFront : List LockInfo := [liFront]

/-! ## Supporting lemmas: the decimal printer and parser agree -/

lemma natToRevDigits_lt (fuel n : ℕ) : ∀ d ∈ natToRevDigits fuel n, d < 10 := by
  induction fuel generalizing n with
  | zero => simp [natToRevDigits]
  | succ fuel ih =>
    cases n with
    | zero => simp [natToRevDigits]
    | succ m =>
      intro d hd
      rw [natToRevDigits] at hd
      rcases List.mem_cons.mp hd with h | h
      · omega
      · exact ih _ d h

lemma natToRevDigits_foldl (fuel : ℕ) :
    ∀ n a, n ≤ fuel →
      List.foldl (fun x d => 10 * x + d) a ((natToRevDigits fuel n).reverse) =
        a * 10 ^ (natToRevDigits fuel n).length + n := by
  induction fuel with
  | zero =>
    intro n a h
    interval_cases n
    simp [natToRevDigits]
  | succ fuel ih =>
    intro n a h
    cases n with
    | zero => simp [natToRevDigits]
    | succ m =>
      have hq : (m + 1) / 10 ≤ fuel := by
        have := Nat.div_le_self (m + 1) 10
        have := Nat.div_lt_self (Nat.succ_pos m) (by omega : 1 < 10)
        omega
      rw [natToRevDigits]
      simp only [List.reverse_cons, List.foldl_append, List.foldl_cons,
        List.foldl_nil, List.length_cons]
      rw [ih ((m + 1) / 10) a hq]
      have hmod := Nat.mod_add_div (m + 1) 10
      ring_nf
      omega

lemma digitVal?_digitChar {d : ℕ} (h : d < 10) :
    digitVal? (digitChar d) = some d := by
  interval_cases d <;> decide

lemma isDigit_digitChar {d : ℕ} (h : d < 10) :
    (digitChar d).isDigit = true := by
  interval_cases d <;> decide

lemma digitsVal?_foldl_map (ds : List ℕ) :
    ∀ a, (∀ d ∈ ds, d < 10) →
      List.foldl (fun acc c =>
        match acc, digitVal? c with
        | some x, some d => some (10 * x + d)
        | _, _ => none) (some a) (ds.map digitChar) =
      some (List.foldl (fun x d => 10 * x + d) a ds) := by
  induction ds with
  | nil => intro a _; rfl
  | cons d ds ih =>
    intro a h
    have hd : d < 10 := h d (List.mem_cons_self d ds)
    simp only [List.map_cons, List.foldl_cons, digitVal?_digitChar hd]
    exact ih (10 * a + d) fun x hx => h x (List.mem_cons_of_mem d hx)

lemma digitsVal?_map_digitChar (ds : List ℕ) (h : ∀ d ∈ ds, d < 10) :
    digitsVal? (ds.map digitChar) =
      some (List.foldl (fun x d => 10 * x + d) 0 ds) := by
  unfold digitsVal?
  exact digitsVal?_foldl_map ds 0 h

lemma pyStrNat_data (n : ℕ) (hn : 0 < n) :
    (pyStrNat n).data = (natToRevDigits n n).reverse.map digitChar := by
  unfold pyStrNat
  rw [if_neg (by omega)]

lemma natToRevDigits_ne_nil (m : ℕ) :
    natToRevDigits (m + 1) (m + 1) ≠ [] := by
  rw [natToRevDigits]
  exact List.cons_ne_nil _ _

/-- On a non-empty all-digit string, `pyFloat?` takes the plain
integer branch. -/
lemma pyFloat?_all_digits (s : String) (h : s.data ≠ [])
    (h2 : ∀ c ∈ s.data, Char.isDigit c = true) :
    pyFloat? s = (digitsVal? s.data).map fun n => (1 : ℚ) * (n : ℚ) := by
  obtain ⟨c0, cs0, hcons⟩ := List.exists_cons_of_ne_nil h
  have hc0d : Char.isDigit c0 = true :=
    h2 c0 (by rw [hcons]; exact List.mem_cons_self _ _)
  have hnm : c0 ≠ '-' := by
    rintro rfl
    exact absurd hc0d (by decide)
  have hnp : c0 ≠ '+' := by
    rintro rfl
    exact absurd hc0d (by decide)
  have hh : s.data.head? = some c0 := by rw [hcons]; rfl
  have hcond1 : ¬(s.data.head? = some '-') := by
    rw [hh]
    simpa using hnm
  have hcond2 : ¬(s.data.head? = some '-' ∨ s.data.head? = some '+') := by
    rw [hh]
    rintro (e | e)
    · exact hnm (by simpa using e)
    · exact hnp (by simpa using e)
  have ht : List.takeWhile Char.isDigit s.data = s.data :=
    List.takeWhile_eq_self_iff.mpr h2
  have hdw : List.dropWhile Char.isDigit s.data = [] :=
    List.dropWhile_eq_nil_iff.mpr h2
  have hie : s.data.isEmpty = false := by
    rw [hcons]
    rfl
  unfold pyFloat?
  simp only [if_neg hcond1, if_neg hcond2, ht, hdw, hie]
  rfl

lemma pyFloat?_pyStrNat (n : ℕ) : pyFloat? (pyStrNat n) = some (n : ℚ) := by
  cases n with
  | zero =>
    have h : pyFloat? (pyStrNat 0) = some ((1 : ℚ) * ((0 : ℕ) : ℚ)) := rfl
    rw [h]
    norm_num
  | succ m =>
    have hd := pyStrNat_data (m + 1) (Nat.succ_pos m)
    have hlt : ∀ d ∈ (natToRevDigits (m + 1) (m + 1)).reverse, d < 10 := by
      intro d hmem
      exact natToRevDigits_lt (m + 1) (m + 1) d (List.mem_reverse.mp hmem)
    have hne : (natToRevDigits (m + 1) (m + 1)).reverse ≠ [] := by
      simpa using natToRevDigits_ne_nil m
    have hdig : ∀ c ∈ (pyStrNat (m + 1)).data, Char.isDigit c = true := by
      rw [hd]
      intro c hc
      rcases List.mem_map.mp hc with ⟨d, hdm, rfl⟩
      exact isDigit_digitChar (hlt d hdm)
    have hne2 : (pyStrNat (m + 1)).data ≠ [] := by
      rw [hd]
      simpa using hne
    rw [pyFloat?_all_digits _ hne2 hdig, hd,
      digitsVal?_map_digitChar _ hlt]
    have hval := natToRevDigits_foldl (m + 1) (m + 1) 0 (le_refl _)
    simp only [zero_mul, zero_add] at hval
    rw [hval]
    simp

lemma pyFloat?_pyStrInt (e : ℤ) (he : 0 ≤ e) :
    pyFloat? (pyStrInt e) = some (e : ℚ) := by
  unfold pyStrInt
  rw [if_neg (by omega)]
  rw [pyFloat?_pyStrNat]
  congr 1
  exact_mod_cast congrArg (fun z : ℤ => (z : ℚ)) (Int.toNat_of_nonneg he)

/-! ## Supporting lemmas: evaluating the store operations -/

lemma load_some_fst (now : ℚ) (c : String) (v : ℚ) (hv : pyFloat? c = some v) :
    (load_ip_block_remaining_seconds now (some c)).1 = ⌈max (v - now) (0 : ℚ)⌉ := by
  unfold load_ip_block_remaining_seconds
  dsimp only
  rw [hv]
  split <;> rfl

lemma load_of_expired (now : ℚ) (c : String) (v : ℚ) (hv : pyFloat? c = some v)
    (h : v - now ≤ 0) : load_ip_block_remaining_seconds now (some c) = (0, none) := by
  unfold load_ip_block_remaining_seconds
  dsimp only
  rw [hv]
  dsimp only
  have hmax : max (v - now) (0 : ℚ) = 0 := max_eq_right h
  rw [hmax, Int.ceil_zero, if_pos le_rfl]
  rfl

lemma load_of_active (now : ℚ) (c : String) (v : ℚ) (hv : pyFloat? c = some v)
    (h : 0 < ⌈max (v - now) (0 : ℚ)⌉) :
    load_ip_block_remaining_seconds now (some c) =
      (⌈max (v - now) (0 : ℚ)⌉, some c) := by
  unfold load_ip_block_remaining_seconds
  dsimp only
  rw [hv]
  dsimp only
  rw [if_neg (by omega)]

lemma load_100_eval :
    load_ip_block_remaining_seconds 0 (some "100") = (100, some "100") := by
  have hp : pyFloat? "100" = some (100 : ℚ) := by
    have h : pyFloat? "100" = some ((1 : ℚ) * ((100 : ℕ) : ℚ)) := rfl
    rw [h]
    norm_num
  rw [load_of_active 0 "100" 100 hp (by norm_num)]
  norm_num

/-! ## Supporting lemmas: evaluating the session client -/

/-- One `login()` call that passes the IP-block check and receives a
single non-401, non-error HTTP response reduces to validating that
response's body. -/
lemma login_one_response (saveFlag : Bool) (now : ℚ) (st : CtrlState)
    (fuel : ℕ) (r : HttpResponse) (resps : List HttpResponse)
    (h : (load_ip_block_remaining_seconds now st.store).1 ≤ 0)
    (h401 : r.status ≠ 401) (hok : r.status < 400) :
    login saveFlag true now (fuel + 3) st (r :: resps) =
      (match validate_login_response saveFlag now r.body
          (load_ip_block_remaining_seconds now st.store).2 with
       | (.error e, store3) =>
         some (.error e, ⟨st.loggedIn, st.lastLogin, store3⟩, resps, ⟨1, 0⟩)
       | (.ok b, store3) =>
         some (.ok (.body b), ⟨true, some now, store3⟩, resps, ⟨1, 0⟩)) := by
  have hc : ¬(true = true ∧ 0 < (load_ip_block_remaining_seconds now st.store).1) := by
    rintro ⟨-, hlt⟩
    omega
  unfold login
  conv_lhs => rw [runF.eq_def]
  dsimp only
  rw [if_neg hc, if_pos rfl]
  conv_lhs => rw [runF.eq_def]
  dsimp only
  rw [if_neg (by rintro ⟨-, hmem⟩; exact hmem (by simp [AUTH_ENDPOINTS]))]
  conv_lhs => rw [runF.eq_def]
  dsimp only
  rw [if_neg (by simpa using h401), if_pos hok]

/-- A re-login against a successful login response consumes that one
response, leaves the client in state `st0`, and issues one GET. -/
lemma login_success_run (f : ℕ) (resps : List HttpResponse) :
    runF true 0 (f + 3) (.login true) st0 (rLoginOk :: resps) =
      some (.ok (.body bSuccess), st0, resps, ⟨1, 0⟩) := by
  have h := login_one_response true 0 st0 f rLoginOk resps (by decide)
    (by decide) (by decide)
  unfold login at h
  rw [h]
  rfl

/-- Step of the unbounded-retry induction: one more 401 round adds one
re-login and two GETs. -/
lemma c1_step (k : ℕ)
    (ih : runF true 0 (2 * k + 5) (.dispatch "getPanelStatus.cgi") st0 (pat k) =
      some (.ok (.resp rOk), st0, [], ⟨2 * k + 1, k⟩)) :
    runF true 0 (2 * (k + 1) + 5) (.dispatch "getPanelStatus.cgi") st0 (pat (k + 1)) =
      some (.ok (.resp rOk), st0, [], ⟨2 * (k + 1) + 1, k + 1⟩) := by
  have hf : 2 * (k + 1) + 5 = (2 * k + 6) + 1 := by ring
  have hp : pat (k + 1) = r401 :: rLoginOk :: pat k := rfl
  rw [hf, hp]
  conv_lhs => rw [runF.eq_def]
  dsimp only
  rw [if_neg (by rintro ⟨hl, -⟩; exact absurd hl (by decide))]
  conv_lhs => rw [runF.eq_def]
  dsimp only
  rw [if_pos (by decide : r401.status = 401)]
  have hl := login_success_run (2 * k + 2) (pat k)
  rw [show (2 * k + 2) + 3 = 2 * k + 5 from by ring] at hl
  rw [hl]
  dsimp only
  rw [ih]
  dsimp only
  congr 1
  refine Prod.ext rfl (Prod.ext rfl (Prod.ext rfl ?_))
  show (⟨1 + 1 + (2 * k + 1), 1 + 0 + k⟩ : RunTrace) = ⟨2 * (k + 1) + 1, k + 1⟩
  refine congrArg₂ RunTrace.mk ?_ ?_ <;> omega

/-! ## Supporting lemmas: the lock collection -/

/-- Loading the store on a format error returns 0 and removes the file
(the expiry cleanup fires because the computed remaining is 0). -/
lemma load_parse_error (now : ℚ) (content : String)
    (h : pyFloat? content = none) :
    load_ip_block_remaining_seconds now (some content) = (0, none) := by
  unfold load_ip_block_remaining_seconds
  dsimp only
  rw [h]
  rfl

/-- Every lock built by `Locks._get_locks` carries a snapshot entry as
its pre-populated `_info`, and its id is that entry's parsed `ID`. -/
lemma get_locks_mem (snapshot : List LockInfo) (locks : List Lock)
    (h : get_locks snapshot = some locks) :
    ∀ l ∈ locks, ∃ li ∈ snapshot,
      l.info = some li ∧ pyIntOfStr? li.ID = some l.id := by
  induction snapshot generalizing locks with
  | nil =>
    rw [get_locks] at h
    obtain rfl : locks = [] := by simpa using h.symm
    simp
  | cons li rest ih =>
    rw [get_locks] at h
    cases hid : pyIntOfStr? li.ID with
    | none =>
      rw [hid] at h
      exact absurd h (by simp)
    | some n =>
      rw [hid] at h
      cases hr : get_locks rest with
      | none =>
        rw [hr] at h
        exact absurd h (by simp)
      | some ls =>
        rw [hr] at h
        obtain rfl : locks = Lock.mk n (some li) :: ls := by simpa using h.symm
        intro l hl
        rcases List.mem_cons.mp hl with rfl | hl
        · exact ⟨li, List.mem_cons_self _ _, rfl, by simpa using hid⟩
        · obtain ⟨li2, hmem, hinfo, hid2⟩ := ih ls hr l hl
          exact ⟨li2, List.mem_cons_of_mem _ hmem, hinfo, hid2⟩

/-! ## Claim theorems -/

/-- C1, counterexample: against an authenticated client, a dispatch
whose GET returns 401, whose re-login succeeds, and whose retried GET
returns 401 again does NOT propagate an error after one re-login:
the code re-logins a second time, retries a second time, and returns
the eventual 200 response — 5 GETs and 2 re-logins in total, where the
claim requires exactly one re-login and an error after the second
401. -/
theorem c1_counterexample :
    get_authenticated_endpoint true 0 20 "getPanelStatus.cgi" st0
        [r401, rLoginOk, r401, rLoginOk, rOk] =
      some (.ok (.resp rOk), st0, [], ⟨5, 2⟩) := rfl

/-- C1, amended: on HTTP 401 the dispatch layer re-logins and retries,
and does so again for every further 401 without bound: a trace of `k`
consecutive 401 responses (each re-login succeeding) followed by a 200
produces `k` re-logins and `2k+1` GETs and ultimately returns the 200
response; a persistent 401 never propagates to the caller as an
error. -/
theorem c1_unbounded_retry (k : ℕ) :
    get_authenticated_endpoint true 0 (2 * k + 5) "getPanelStatus.cgi" st0
        (pat k) =
      some (.ok (.resp rOk), st0, [], ⟨2 * k + 1, k⟩) := by
  unfold get_authenticated_endpoint
  induction k with
  | zero => rfl
  | succ k ih => exact c1_step k ih

/-- Witness for the amended C1 statement at two consecutive 401s. -/
theorem c1_witness :
    get_authenticated_endpoint true 0 (2 * 2 + 5) "getPanelStatus.cgi" st0
        (pat 2) =
      some (.ok (.resp rOk), st0, [], ⟨2 * 2 + 1, 2⟩) :=
  c1_unbounded_retry 2

/-- C2, counterexample: a store file holding the unparsable content
"abc" makes `_load_ip_block_remaining_seconds` return 0 but does NOT
leave the file unchanged: the file is removed by the read. -/
theorem c2_counterexample :
    pyFloat? "abc" = none ∧
    (load_ip_block_remaining_seconds 1000 (some "abc")).1 = 0 ∧
    (load_ip_block_remaining_seconds 1000 (some "abc")).2 ≠ some "abc" := by
  decide

/-- C2, amended: when the persisted file exists but its content does
not parse (a format error), `_load_ip_block_remaining_seconds` returns
0 and removes the file — the expiry cleanup (`remaining ≤ 0`) also
fires on the `ValueError` path, so a read does clear a malformed
store. -/
theorem c2_format_error_clears (now : ℚ) (content : String)
    (h : pyFloat? content = none) :
    load_ip_block_remaining_seconds now (some content) = (0, none) :=
  load_parse_error now content h

/-- Witness for C2's amended theorem at the concrete content "abc". -/
theorem c2_witness :
    pyFloat? "abc" = none ∧
    load_ip_block_remaining_seconds 1000 (some "abc") = (0, none) :=
  ⟨by decide, c2_format_error_clears 1000 "abc" (by decide)⟩

/-- C5: a `login()` with the IP-block check enabled, while the store
reports a positive remaining block, raises `IPBlockedError` carrying
the remaining duration in its message, without consuming any server
response (0 GETs, response list returned untouched). -/
theorem c5_login_blocked (saveFlag : Bool) (now : ℚ) (st : CtrlState)
    (resps : List HttpResponse) (fuel : ℕ)
    (h : 0 < (load_ip_block_remaining_seconds now st.store).1) :
    login saveFlag true now (fuel + 1) st resps =
      some (.error (.ipBlocked (ip_block_message
          (load_ip_block_remaining_seconds now st.store).1)),
        ⟨st.loggedIn, st.lastLogin,
          (load_ip_block_remaining_seconds now st.store).2⟩,
        resps, ⟨0, 0⟩) := by
  unfold login
  conv_lhs => rw [runF.eq_def]
  dsimp only
  rw [if_pos ⟨rfl, h⟩]

/-- Witness for C5 with a store holding 100 remaining seconds. -/
theorem c5_witness :
    login true true 0 1 ⟨false, none, some "100"⟩ [] =
      some (.error (.ipBlocked (ip_block_message 100)),
        ⟨false, none, some "100"⟩, [], ⟨0, 0⟩) := by
  have h := c5_login_blocked true 0 ⟨false, none, some "100"⟩ [] 0
    (by show 0 < (load_ip_block_remaining_seconds 0 (some "100")).1
        rw [load_100_eval]
        decide)
  rw [show load_ip_block_remaining_seconds 0
      ((⟨false, none, some "100"⟩ : CtrlState).store) =
      (100, some "100") from load_100_eval] at h
  exact h

/-- C6: for every store state and clock, the loaded remaining duration
is never negative; the store file is absent after any read whose
computed remaining is ≤ 0; and a successful login validation removes
the store file. -/
theorem c6_invariants (now : ℚ) (store : Option String) :
    0 ≤ (load_ip_block_remaining_seconds now store).1 ∧
    ((load_ip_block_remaining_seconds now store).1 ≤ 0 →
      (load_ip_block_remaining_seconds now store).2 = none) ∧
    (∀ (saveFlag : Bool) (b : LoginBody) (st : Option String),
      b.Status = some "SUCCESS" →
      (validate_login_response saveFlag now b st).2 = none) := by
  refine ⟨?_, ?_, ?_⟩
  · rcases store with _ | c
    · simp [load_ip_block_remaining_seconds]
    · rcases hp : pyFloat? c with _ | v
      · rw [load_parse_error now c hp]
      · rw [load_some_fst now c v hp]
        exact Int.ceil_nonneg (le_max_right _ _)
  · rcases store with _ | c
    · intro _
      simp [load_ip_block_remaining_seconds]
    · intro h1
      rcases hp : pyFloat? c with _ | v
      · rw [load_parse_error now c hp]
      · rw [load_some_fst now c v hp] at h1
        have h2 : max (v - now) (0 : ℚ) ≤ 0 := by exact_mod_cast Int.ceil_le.mp h1
        have h3 : v - now ≤ 0 := (max_le_iff.mp h2).1
        rw [load_of_expired now c v hp h3]
  · intro saveFlag b st hb
    unfold validate_login_response
    rw [if_pos hb]
    rfl

/-- Witness for C6 at a malformed store (read clears it) and a
successful login body. -/
theorem c6_witness :
    0 ≤ (load_ip_block_remaining_seconds 7 (some "zzz")).1 ∧
    (load_ip_block_remaining_seconds 7 (some "zzz")).2 = none ∧
    (validate_login_response true 7 bSuccess (some "5")).2 = none := by
  have h := c6_invariants 7 (some "zzz")
  exact ⟨h.1, h.2.1 (by decide), h.2.2 true bSuccess (some "5") rfl⟩

/-- C3: a login whose (non-401, 200) response has body
`{"Status": "SUCCESS"}` sets the authenticated flag, records the login
instant, leaves the IP-block file removed, and returns the parsed body
unchanged. -/
theorem c3_login_success (saveFlag : Bool) (now : ℚ) (st : CtrlState)
    (fuel : ℕ) (b : LoginBody) (hb : b.Status = some "SUCCESS")
    (h : (load_ip_block_remaining_seconds now st.store).1 ≤ 0) :
    login saveFlag true now (fuel + 3) st [⟨200, b⟩] =
      some (.ok (.body b), ⟨true, some now, none⟩, [], ⟨1, 0⟩) := by
  rw [login_one_response saveFlag now st fuel ⟨200, b⟩ [] h
    (show (200 : ℕ) ≠ 401 by decide) (show (200 : ℕ) < 400 by decide)]
  unfold validate_login_response
  rw [if_pos (show (⟨200, b⟩ : HttpResponse).body.Status = some "SUCCESS"
    from hb)]
  rfl

/-- Witness for C3 at the concrete success body. -/
theorem c3_witness :
    login true true 0 3 ⟨false, none, none⟩ [⟨200, bSuccess⟩] =
      some (.ok (.body bSuccess), ⟨true, some 0, none⟩, [], ⟨1, 0⟩) :=
  c3_login_success true 0 ⟨false, none, none⟩ 0 bSuccess rfl (by decide)

/-- C4: a login whose response body is
`{"Status":"FAIL","ErrMsg":"LOGIN_IP_BLOCKED","BlockTime":"30"}`, with
persistence enabled, writes a rate-limit record whose expiry is 30
seconds from now (an immediate re-read reports exactly 30 remaining
seconds) and raises `AuthError` with message
"Wrong entry. Login blocked.". -/
theorem c4_blocked_response (now : ℚ) (st : CtrlState) (fuel : ℕ)
    (h0 : 0 ≤ now)
    (h : (load_ip_block_remaining_seconds now st.store).1 ≤ 0) :
    login true true now (fuel + 3) st [⟨200, bBlocked⟩] =
      some (.error (.auth "Wrong entry. Login blocked." bBlocked),
        ⟨st.loggedIn, st.lastLogin, save_ip_block now 30⟩, [], ⟨1, 0⟩) ∧
    (load_ip_block_remaining_seconds now (save_ip_block now 30)).1 = 30 := by
  constructor
  · rw [login_one_response true now st fuel ⟨200, bBlocked⟩ [] h (by decide)
      (by decide)]
    unfold validate_login_response
    rw [if_neg (by decide :
        ¬((⟨200, bBlocked⟩ : HttpResponse).body.Status = some "SUCCESS"))]
    rw [if_pos (⟨by decide, rfl⟩ :
        (⟨200, bBlocked⟩ : HttpResponse).body.ErrMsg = some "LOGIN_IP_BLOCKED"
          ∧ true = true)]
    rfl
  · have hfl : (0 : ℤ) ≤ ⌊now⌋ := Int.le_floor.mpr (by exact_mod_cast h0)
    have he : (0 : ℤ) ≤ ⌊now⌋ + 30 := by omega
    have hsave : save_ip_block now 30 = some (pyStrInt (⌊now⌋ + 30)) := by
      unfold save_ip_block pyTrunc
      rw [if_pos h0]
    rw [hsave, load_some_fst now _ _ (pyFloat?_pyStrInt _ he)]
    have h1 : ((⌊now⌋ : ℚ)) ≤ now := Int.floor_le now
    have h2 : now - 1 < (⌊now⌋ : ℚ) := Int.sub_one_lt_floor now
    have hmax : max (((⌊now⌋ + 30 : ℤ) : ℚ) - now) 0 =
        ((⌊now⌋ + 30 : ℤ) : ℚ) - now := by
      rw [max_eq_left]
      push_cast
      linarith
    rw [hmax]
    rw [Int.ceil_eq_iff]
    constructor
    · push_cast
      linarith
    · push_cast
      linarith

/-- Witness for C4 at clock 0 against a fresh client. -/
theorem c4_witness :
    login true true 0 3 ⟨false, none, none⟩ [⟨200, bBlocked⟩] =
      some (.error (.auth "Wrong entry. Login blocked." bBlocked),
        ⟨false, none, save_ip_block 0 30⟩, [], ⟨1, 0⟩) ∧
    (load_ip_block_remaining_seconds 0 (save_ip_block 0 30)).1 = 30 :=
  c4_blocked_response 0 ⟨false, none, none⟩ 0 (by decide) (by decide)

/-- C7: saving a non-negative number `s` of block seconds at clock `t`
and reading back at a clock `t'` less than one second later yields a
remaining duration in `[s-1, s]`; and reading at any clock past the
stored expiry `⌊t⌋ + s` yields 0 with the record removed. -/
theorem c7_save_then_load (t t' u : ℚ) (s : ℕ) (h0 : 0 ≤ t) :
    (t ≤ t' → t' < t + 1 →
      (s : ℤ) - 1 ≤ (load_ip_block_remaining_seconds t' (save_ip_block t s)).1 ∧
      (load_ip_block_remaining_seconds t' (save_ip_block t s)).1 ≤ s) ∧
    (((⌊t⌋ + s : ℤ) : ℚ) ≤ u →
      load_ip_block_remaining_seconds u (save_ip_block t s) = (0, none)) := by
  have hfl : (0 : ℤ) ≤ ⌊t⌋ := Int.le_floor.mpr (by exact_mod_cast h0)
  have he : (0 : ℤ) ≤ ⌊t⌋ + s := by positivity
  have hsave : save_ip_block t s = some (pyStrInt (⌊t⌋ + s)) := by
    unfold save_ip_block pyTrunc
    rw [if_pos h0]
  have hparse := pyFloat?_pyStrInt (⌊t⌋ + s) he
  have hf1 : ((⌊t⌋ : ℚ)) ≤ t := Int.floor_le t
  have hf2 : t - 1 < (⌊t⌋ : ℚ) := Int.sub_one_lt_floor t
  constructor
  · intro h1 h2
    rw [hsave, load_some_fst t' _ _ hparse]
    have hxu : ((⌊t⌋ + s : ℤ) : ℚ) - t' ≤ (s : ℚ) := by
      push_cast
      linarith
    have hxl : (s : ℚ) - 2 < ((⌊t⌋ + s : ℤ) : ℚ) - t' := by
      push_cast
      linarith
    constructor
    · have : (s : ℤ) - 2 < ⌈max (((⌊t⌋ + s : ℤ) : ℚ) - t') 0⌉ :=
        Int.lt_ceil.mpr (by
          push_cast
          exact lt_of_lt_of_le (by push_cast at hxl ⊢; linarith)
            (le_max_left _ _))
      omega
    · refine Int.ceil_le.mpr ?_
      push_cast
      refine max_le (by push_cast at hxu ⊢; linarith) (by positivity)
  · intro hu
    rw [hsave]
    exact load_of_expired u _ _ hparse (by push_cast at hu ⊢; linarith)

/-- Witness for C7 at `s = 30`, saving and reading at clock 0 and
reading again at clock 31. -/
theorem c7_witness :
    ((30 : ℤ) - 1 ≤ (load_ip_block_remaining_seconds 0 (save_ip_block 0 30)).1 ∧
      (load_ip_block_remaining_seconds 0 (save_ip_block 0 30)).1 ≤ 30) ∧
    load_ip_block_remaining_seconds 31 (save_ip_block 0 30) = (0, none) := by
  have h := c7_save_then_load 0 0 31 30 (le_refl 0)
  exact ⟨h.1 (le_refl 0) (by norm_num), h.2 (by norm_num)⟩

/-- C8: in a collection built from one bulk fetch, indexing by an
absent id raises `IndexError`, while indexing by a present id returns
a lock whose `_info` is a snapshot entry, and whose `name`, `hwid`,
`disabled` and `cluster` accessors answer from that cached entry with
zero further `get_user_smartloxx` fetches, whatever the live server
list is. -/
theorem c8_snapshot_lookup (snapshot : List LockInfo) (locks : List Lock)
    (h : get_locks snapshot = some locks) (n : ℤ) :
    ((locks.find? fun l => n = l.id) = none →
      locks_getitem (.int n) locks =
        .error (.indexError ("No lock with ID " ++ pyStrInt n ++ " found"))) ∧
    (∀ l, (locks.find? fun l => n = l.id) = some l →
      locks_getitem (.int n) locks = .ok l ∧
      ∃ li ∈ snapshot, l.info = some li ∧
        ∀ srv, l.name srv = .ok (li.Name, 0) ∧
          l.hwid srv = .ok (li.HwId, 0) ∧
          l.disabled srv = .ok (decide (li.Disabled = some "ON"), 0) ∧
          l.cluster srv = cluster_from li) := by
  constructor
  · intro hf
    unfold locks_getitem find_lock_by_id
    cases locks with
    | nil => rfl
    | cons a as =>
      dsimp only [pyValInt?]
      rw [hf]
      rfl
  · intro l hf
    have hmem := List.mem_of_find?_eq_some hf
    constructor
    · unfold locks_getitem find_lock_by_id
      cases locks with
      | nil => exact absurd hmem (List.not_mem_nil l)
      | cons a as =>
        dsimp only [pyValInt?]
        rw [hf]
    · obtain ⟨li, hli, hinfo, _⟩ := get_locks_mem snapshot locks h l hmem
      refine ⟨li, hli, hinfo, fun srv => ?_⟩
      have hgi : l.get_info srv = .ok (li, 0) := by
        unfold Lock.get_info
        rw [hinfo]
      refine ⟨?_, ?_, ?_, ?_⟩
      · unfold Lock.name
        rw [hgi]
        rfl
      · unfold Lock.hwid
        rw [hgi]
        rfl
      · unfold Lock.disabled
        rw [hgi]
        rfl
      · unfold Lock.cluster cluster_from
        rw [hgi]

/-- Witness for C8 on a one-lock snapshot: id 5 is absent, id 2 is
present and its accessors answer from the cache (here: against an
empty live server list, proving no fetch is needed). -/
theorem c8_witness :
    locks_getitem (.int 5) [lockFront] =
      .error (.indexError ("No lock with ID " ++ pyStrInt 5 ++ " found")) ∧
    locks_getitem (.int 2) [lockFront] = .ok lockFront ∧
    lockFront.name [] = .ok (some "Front", 0) ∧
    lockFront.hwid [] = .ok (some "HW2", 0) ∧
    lockFront.disabled [] = .ok (false, 0) ∧
    lockFront.cluster [] = .ok (1, 0) := by
  have h5 := (c8_snapshot_lookup snapFront [lockFront] rfl 5).1 (by decide)
  have h2 := (c8_snapshot_lookup snapFront [lockFront] rfl 2).2 lockFront
    (by decide)
  obtain ⟨hget, li, hli, hinfo, hacc⟩ := h2
  have hlieq : li = liFront := by simpa [snapFront] using hli
  subst hlieq
  exact ⟨h5, hget, (hacc []).1, (hacc []).2.1, (hacc []).2.2.1,
    (hacc []).2.2.2⟩

/-- C9: in a panel-status response, if the zip of `AvailableLoxx` and
`RemoteAccessTime` contains a matching entry for the lock id with a
positive time then `is_open` is true; and if the id does not occur in
`AvailableLoxx` at all then `access_time` is `None` and `is_open` is
false. -/
theorem c9_access_time (id : ℤ) (avail : List String) (times : List ℤ) :
    (∀ p : String × ℤ,
      (avail.zip times).find? (fun q => q.1 = pyStrInt id) = some p →
      0 < p.2 → is_open id avail times = true) ∧
    (pyStrInt id ∉ avail →
      access_time id avail times = none ∧ is_open id avail times = false) := by
  constructor
  · intro p hp hpos
    unfold is_open access_time
    rw [hp]
    simpa using hpos
  · intro hni
    have hf : (avail.zip times).find? (fun q => decide (q.1 = pyStrInt id)) =
        none := by
      rw [List.find?_eq_none]
      rintro ⟨a, b⟩ hx
      have hx1 : a ∈ avail := (List.of_mem_zip hx).1
      simp only [decide_eq_true_eq]
      intro he
      rw [he] at hx1
      exact hni hx1
    constructor
    · unfold access_time
      rw [hf]
      rfl
    · unfold is_open access_time
      rw [hf]
      rfl

/-- Witness for C9: id 2 with remaining time 5 is open; id 7, absent
from the panel arrays, has no access time and is closed. -/
theorem c9_witness :
    is_open 2 ["2", "4"] [5, 0] = true ∧
    access_time 7 ["2", "4"] [5, 0] = none ∧
    is_open 7 ["2", "4"] [5, 0] = false := by
  have h1 := (c9_access_time 2 ["2", "4"] [5, 0]).1 ("2", 5) (by decide)
    (by decide)
  have h2 := (c9_access_time 7 ["2", "4"] [5, 0]).2 (by decide)
  exact ⟨h1, h2.1, h2.2⟩

/-- C10: `find_lock_by_id` converts both its argument and each stored
lock id with `int`, so any argument whose integer conversion equals a
stored id finds a lock with that id (no exception, no miss). -/
theorem c10_find_by_int (v : PyVal) (locks : List Lock) (n : ℤ)
    (hv : pyValInt? v = some n) (hl : ∃ l ∈ locks, l.id = n) :
    ∃ l, find_lock_by_id v locks = some (some l) ∧ l.id = n := by
  obtain ⟨l0, hl0, hid⟩ := hl
  cases locks with
  | nil => exact absurd hl0 (List.not_mem_nil l0)
  | cons a as =>
    unfold find_lock_by_id
    dsimp only
    rw [hv]
    dsimp only
    have hs : (List.find? (fun l => decide (n = l.id)) (a :: as)).isSome := by
      rw [List.find?_isSome]
      exact ⟨l0, hl0, by simpa using hid.symm⟩
    obtain ⟨l2, hl2⟩ := Option.isSome_iff_exists.mp hs
    have hpred := List.find?_some hl2
    refine ⟨l2, ?_, ?_⟩
    · rw [hl2]
    · exact (of_decide_eq_true hpred).symm

/-- Witness for C10: the string "2" finds the lock with integer id 2. -/
theorem c10_witness :
    ∃ l, find_lock_by_id (.str "2") [lockFront] = some (some l) ∧
      l.id = 2 :=
  c10_find_by_int (.str "2") [lockFront] 2 (by decide)
    ⟨lockFront, by simp, rfl⟩

end WAppLoxx
